import Mathlib

/-
  Verification development for the native op bridge declared in
  src/tensorflow_jni/src/main/native/include/op_jni.h.

  The repository ships only the machine-generated header: the exported
  entry-point surface is embedded directly from the header, while the
  behaviour of the entry-point bodies (absent from the repository) is
  modelled from the specification (spec.md sections 3, 4, 7, 8).
-/

namespace OpBridge

/-- Attribute kinds of the tagged attribute union (spec section 3). -/
inductive AttrKind where
  | string
  | stringList
  | int
  | intList
  | float
  | floatList
  | bool
  | boolList
  | type
  | typeList
  | shape
  | shapeList
  | tensor
  | tensorList
  deriving DecidableEq

/-- The typed attribute-setter entry points declared in op_jni.h
(method names from the generated header, lines 234-336), paired with the
attribute kind each one handles. -/
def headerSetAttrEntryPoints : List (String × AttrKind) :=
  [("setAttrString", AttrKind.string),
   ("setAttrStringList", AttrKind.stringList),
   ("setAttrInt", AttrKind.int),
   ("setAttrIntList", AttrKind.intList),
   ("setAttrFloat", AttrKind.float),
   ("setAttrFloatList", AttrKind.floatList),
   ("setAttrBool", AttrKind.bool),
   ("setAttrBoolList", AttrKind.boolList),
   ("setAttrType", AttrKind.type),
   ("setAttrTypeList", AttrKind.typeList),
   ("setAttrTensor", AttrKind.tensor),
   ("setAttrTensorList", AttrKind.tensorList),
   ("setAttrShape", AttrKind.shape)]

/-- Error taxonomy of the bridge (spec section 7). -/
inductive TfError where
  | invalidHandle
  | outOfRange
  | invalidArgument
  | failedPrecondition
  | notFound
  | backendError
  | resourceExhausted
  deriving DecidableEq

/-- Attribute values stored in a builder: the tagged union of spec
section 3.  Strings carry raw bytes; float bit patterns are opaque. -/
inductive AttrValue where
  | str (bytes : List Nat)
  | strList (items : List (List Nat))
  | int (v : Int)
  | intList (v : List Int)
  | float (bits : Nat)
  | floatList (bits : List Nat)
  | bool (v : Bool)
  | boolList (v : List Bool)
  | type (code : Nat)
  | typeList (codes : List Nat)
  | shape (s : Option (List Int))
  | tensor (h : Nat)
  | tensorList (hs : List Nat)
  deriving DecidableEq

/-- One positional input slot of an op: a single edge or one variadic
list of edges (spec section 4.2, ordering rules). -/
inductive InputSlot where
  | single (producer : Nat) (index : Nat)
  | variadic (edges : List (Nat × Nat))
  deriving DecidableEq

/-- Association-list lookup on the first matching key. -/
def assocGet {κ α : Type} [DecidableEq κ] (k : κ) : List (κ × α) → Option α
  | [] => none
  | (k2, v) :: rest => if k2 = k then some v else assocGet k rest

/-- Association-list overwrite-or-append (last-writer-wins). -/
def assocSet {κ α : Type} [DecidableEq κ] (k : κ) (v : α) : List (κ × α) → List (κ × α)
  | [] => [(k, v)]
  | (k2, v2) :: rest => if k2 = k then (k, v) :: rest else (k2, v2) :: assocSet k v rest

/-- Association-list removal of every entry with the given key. -/
def assocRemove {κ α : Type} [DecidableEq κ] (k : κ) : List (κ × α) → List (κ × α)
  | [] => []
  | (k2, v2) :: rest => if k2 = k then assocRemove k rest else (k2, v2) :: assocRemove k rest

/-- Modelled from the spec: a pending op builder (spec section 4.2); the
header declares only the entry points, not the builder state. -/
structure Builder where
  graph : Nat
  opType : String
  nodeName : String
  inputSlots : List InputSlot
  ctrlInputs : List Nat
  device : String
  colocations : List Nat
  attrs : List (String × AttrValue)
  deriving DecidableEq

/-- Modelled from the spec: a finalized op in the graph (spec sections 3
and 4.1); the header declares only the inspection entry points. -/
structure Node where
  nodeName : String
  opType : String
  device : String
  inputSlots : List InputSlot
  ctrlInputs : List Nat
  outputTypes : List Nat
  attrs : List (String × AttrValue)
  deriving DecidableEq

/-- Modelled from the spec: a registered op definition used by finish to
validate required attributes and inputs (spec section 4.2). -/
structure OpDef where
  requiredAttrs : List String
  requiredInputs : Nat
  outTypes : List Nat
  deriving DecidableEq

/-- Modelled from the spec: the backend state visible through the bridge:
the op registry, live graph handles, finalized nodes, inferred output
shapes, and live builders (spec sections 2, 3 and 6.2). -/
structure BridgeState where
  registry : List (String × OpDef)
  liveGraphs : List Nat
  nodes : List (Nat × Node)
  shapes : List ((Nat × Nat) × Option (List Int))
  builders : List (Nat × Builder)
  nextHandle : Nat
  deriving DecidableEq

/-- Resolve an op handle; a handle not issued by the backend is invalid
(spec section 7, error taxonomy item 1). -/
def lookupNode (s : BridgeState) (op : Nat) : Except TfError Node :=
  match assocGet op s.nodes with
  | some n => Except.ok n
  | none => Except.error TfError.invalidHandle

/-- The flat list of positional input edges of a node, variadic slots
expanded in place. -/
def flatEdges (n : Node) : List (Nat × Nat) :=
  (n.inputSlots.map (fun sl =>
    match sl with
    | InputSlot.single p i => [(p, i)]
    | InputSlot.variadic es => es)).flatten

/-- Modelled from the spec: numInputs counts positional input slots, a
variadic slot counting as one (spec sections 4.1 and 4.2). -/
def numInputs (s : BridgeState) (op : Nat) : Except TfError Nat :=
  match lookupNode s op with
  | Except.ok n => Except.ok n.inputSlots.length
  | Except.error e => Except.error e

/-- Modelled from the spec: numOutputs of a finalized op (spec 4.1). -/
def numOutputs (s : BridgeState) (op : Nat) : Except TfError Nat :=
  match lookupNode s op with
  | Except.ok n => Except.ok n.outputTypes.length
  | Except.error e => Except.error e

/-- Modelled from the spec: the i-th positional input of an op as a
producer pair; out-of-range index is an error (spec 4.1). -/
def input (s : BridgeState) (op : Nat) (i : Nat) : Except TfError (Nat × Nat) :=
  match lookupNode s op with
  | Except.error e => Except.error e
  | Except.ok n =>
    match (flatEdges n).get? i with
    | some e => Except.ok e
    | none => Except.error TfError.outOfRange

/-- Input positions of a candidate consumer node that read output i of
op: the positions k with the k-th flat edge equal to (op, i). -/
def consumerSlots (cn : Node) (op : Nat) (i : Nat) : List Nat :=
  (List.range (flatEdges cn).length).filter
    (fun k => decide ((flatEdges cn).get? k = some (op, i)))

/-- Modelled from the spec: the consumer list of output i of op, scanning
every node of the state for input edges reading (op, i) (spec 4.1). -/
def consumersOf (s : BridgeState) (op : Nat) (i : Nat) : List (Nat × Nat) :=
  (s.nodes.map (fun e => (consumerSlots e.2 op i).map (fun k => (e.1, k)))).flatten

/-- Modelled from the spec: the consumers entry point (spec 4.1). -/
def consumers (s : BridgeState) (op : Nat) (i : Nat) : Except TfError (List (Nat × Nat)) :=
  match lookupNode s op with
  | Except.error e => Except.error e
  | Except.ok n =>
    if i < n.outputTypes.length then Except.ok (consumersOf s op i)
    else Except.error TfError.outOfRange

/-- Modelled from the spec: numConsumers of output i of op (spec 4.1). -/
def numConsumers (s : BridgeState) (op : Nat) (i : Nat) : Except TfError Nat :=
  match lookupNode s op with
  | Except.error e => Except.error e
  | Except.ok n =>
    if i < n.outputTypes.length then Except.ok (consumersOf s op i).length
    else Except.error TfError.outOfRange

/-- Modelled from the spec: the control-input list of an op, in
definition order (spec 4.1). -/
def controlInputs (s : BridgeState) (op : Nat) : Except TfError (List Nat) :=
  match lookupNode s op with
  | Except.ok n => Except.ok n.ctrlInputs
  | Except.error e => Except.error e

/-- Modelled from the spec: numControlInputs of an op (spec 4.1). -/
def numControlInputs (s : BridgeState) (op : Nat) : Except TfError Nat :=
  match lookupNode s op with
  | Except.ok n => Except.ok n.ctrlInputs.length
  | Except.error e => Except.error e

/-- Handles of the nodes that carry op among their control inputs. -/
def controlOutputsOf (s : BridgeState) (op : Nat) : List Nat :=
  (s.nodes.filter (fun e => e.2.ctrlInputs.contains op)).map Prod.fst

/-- Modelled from the spec: the control-output list of an op (spec 4.1). -/
def controlOutputs (s : BridgeState) (op : Nat) : Except TfError (List Nat) :=
  match lookupNode s op with
  | Except.ok _ => Except.ok (controlOutputsOf s op)
  | Except.error e => Except.error e

/-- Modelled from the spec: numControlOutputs of an op (spec 4.1). -/
def numControlOutputs (s : BridgeState) (op : Nat) : Except TfError Nat :=
  match lookupNode s op with
  | Except.ok _ => Except.ok (controlOutputsOf s op).length
  | Except.error e => Except.error e

/-- Modelled from the spec: outputDataType; the graph handle must be
live and the index in range (spec 4.1 and design note on graph context). -/
def outputDataType (s : BridgeState) (g : Nat) (op : Nat) (i : Nat) : Except TfError Nat :=
  if s.liveGraphs.contains g then
    match lookupNode s op with
    | Except.error e => Except.error e
    | Except.ok n =>
      match n.outputTypes.get? i with
      | some t => Except.ok t
      | none => Except.error TfError.outOfRange
  else Except.error TfError.invalidHandle

/-- Modelled from the spec: inputDataType, the data type of the output
feeding input i (spec 4.1 and section 8 type invariant). -/
def inputDataType (s : BridgeState) (g : Nat) (op : Nat) (i : Nat) : Except TfError Nat :=
  if s.liveGraphs.contains g then
    match lookupNode s op with
    | Except.error e => Except.error e
    | Except.ok n =>
      match (flatEdges n).get? i with
      | some pe => outputDataType s g pe.1 pe.2
      | none => Except.error TfError.outOfRange
  else Except.error TfError.invalidHandle

/-- The shape currently recorded for output i of op; absent means
unknown rank (spec section 3, shape conventions). -/
def shapeOf (s : BridgeState) (op : Nat) (i : Nat) : Option (List Int) :=
  match assocGet (op, i) s.shapes with
  | some sh => sh
  | none => none

/-- Modelled from the spec: the shape query; a known-rank shape comes
back as the dimension array, unknown rank as a distinguished absent
result (spec 4.1 and 6.4). -/
def shape (s : BridgeState) (g : Nat) (op : Nat) (i : Nat) : Except TfError (Option (List Int)) :=
  if s.liveGraphs.contains g then
    match lookupNode s op with
    | Except.error e => Except.error e
    | Except.ok n =>
      if i < n.outputTypes.length then Except.ok (shapeOf s op i)
      else Except.error TfError.outOfRange
  else Except.error TfError.invalidHandle

/-- Decode the dims-plus-rank wire encoding of a shape: rank -1 with
empty dims is unknown rank, a non-negative rank must match the dims
length, anything else is malformed (spec sections 4.2, 6.4 and 7). -/
def encodeShapeArg (dims : List Int) (rank : Int) : Except TfError (Option (List Int)) :=
  if rank = -1 then
    if dims = [] then Except.ok none else Except.error TfError.invalidArgument
  else if 0 ≤ rank ∧ dims.length = rank.toNat then Except.ok (some dims)
  else Except.error TfError.invalidArgument

/-- Merge one dimension of an existing shape with one caller dimension:
-1 on either side is unknown, known dimensions must agree (spec 4.1). -/
def mergeDim (old : Int) (new : Int) : Option Int :=
  if old = -1 then some new
  else if new = -1 then some old
  else if old = new then some old
  else none

/-- Merge two known-rank dimension lists pointwise; failure when the
ranks differ or any known dimension contradicts. -/
def mergeDims : List Int → List Int → Option (List Int)
  | [], [] => some []
  | x :: xs, y :: ys =>
    match mergeDim x y, mergeDims xs ys with
    | some d, some rest => some (d :: rest)
    | _, _ => none
  | _, _ => none

/-- Merge an existing shape with a caller-provided one; unknown rank on
either side contributes nothing (spec 4.1, refinement as intersection). -/
def mergeShape : Option (List Int) → Option (List Int) → Option (Option (List Int))
  | none, t => some t
  | some ds, none => some (some ds)
  | some ds, some es => (mergeDims ds es).map some

/-- One dimension refines another when the old one was unknown or they
agree. -/
def dimRefines (new : Int) (old : Int) : Bool :=
  old == -1 || new == old

/-- A shape refines another when the old rank was unknown, or both ranks
agree and every known old dimension is preserved (spec section 8). -/
def shapeRefines : Option (List Int) → Option (List Int) → Bool
  | _, none => true
  | none, some _ => false
  | some ns, some os => ns.length == os.length && (ns.zip os).all (fun p => dimRefines p.1 p.2)

/-- Modelled from the spec: setShape refines (intersects) the recorded
shape with the caller-provided one and fails with FailedPrecondition on
an incompatible refinement (spec 4.1 and section 7 item 4). -/
def setShape (s : BridgeState) (g : Nat) (op : Nat) (i : Nat) (dims : List Int) (rank : Int) : Except TfError BridgeState :=
  if s.liveGraphs.contains g then
    match lookupNode s op with
    | Except.error e => Except.error e
    | Except.ok n =>
      if i < n.outputTypes.length then
        match encodeShapeArg dims rank with
        | Except.error e => Except.error e
        | Except.ok nsh =>
          match mergeShape (shapeOf s op i) nsh with
          | none => Except.error TfError.failedPrecondition
          | some m => Except.ok { s with shapes := assocSet (op, i) m s.shapes }
      else Except.error TfError.outOfRange
  else Except.error TfError.invalidHandle

/-- Modelled from the spec: getAttrString returns the raw bytes of a
string attribute; absent name is NotFound, kind mismatch is
InvalidArgument (spec 4.4 and section 7). -/
def getAttrString (s : BridgeState) (op : Nat) (nm : String) : Except TfError (List Nat) :=
  match lookupNode s op with
  | Except.error e => Except.error e
  | Except.ok n =>
    match assocGet nm n.attrs with
    | none => Except.error TfError.notFound
    | some (AttrValue.str v) => Except.ok v
    | some _ => Except.error TfError.invalidArgument

/-- Modelled from the spec: getAttrStringList (spec 4.4). -/
def getAttrStringList (s : BridgeState) (op : Nat) (nm : String) : Except TfError (List (List Nat)) :=
  match lookupNode s op with
  | Except.error e => Except.error e
  | Except.ok n =>
    match assocGet nm n.attrs with
    | none => Except.error TfError.notFound
    | some (AttrValue.strList v) => Except.ok v
    | some _ => Except.error TfError.invalidArgument

/-- Modelled from the spec: getAttrType returns a DataType code (spec
4.4). -/
def getAttrType (s : BridgeState) (op : Nat) (nm : String) : Except TfError Nat :=
  match lookupNode s op with
  | Except.error e => Except.error e
  | Except.ok n =>
    match assocGet nm n.attrs with
    | none => Except.error TfError.notFound
    | some (AttrValue.type c) => Except.ok c
    | some _ => Except.error TfError.invalidArgument

/-- Modelled from the spec: getAttrShape with the section 3 shape
convention (spec 4.4). -/
def getAttrShape (s : BridgeState) (op : Nat) (nm : String) : Except TfError (Option (List Int)) :=
  match lookupNode s op with
  | Except.error e => Except.error e
  | Except.ok n =>
    match assocGet nm n.attrs with
    | none => Except.error TfError.notFound
    | some (AttrValue.shape sh) => Except.ok sh
    | some _ => Except.error TfError.invalidArgument

/-- Modelled from the spec: allocate creates a fresh builder bound to a
live graph and returns its handle; an unknown graph handle is invalid
(spec 4.2, Allocated state). -/
def allocate (s : BridgeState) (g : Nat) (opType : String) (nodeName : String) : Except TfError Nat × BridgeState :=
  if s.liveGraphs.contains g then
    let fresh : Builder :=
      { graph := g, opType := opType, nodeName := nodeName,
        inputSlots := [], ctrlInputs := [], device := "",
        colocations := [], attrs := [] }
    (Except.ok s.nextHandle,
     { s with builders := assocSet s.nextHandle fresh s.builders,
              nextHandle := s.nextHandle + 1 })
  else (Except.error TfError.invalidHandle, s)

/-- Apply a configuring step to a live builder; an unknown builder
handle raises InvalidHandle and leaves the state unchanged. -/
def updateBuilder (s : BridgeState) (b : Nat) (f : Builder → Except TfError Builder) : Except TfError BridgeState :=
  match assocGet b s.builders with
  | none => Except.error TfError.invalidHandle
  | some bu =>
    match f bu with
    | Except.error e => Except.error e
    | Except.ok bu2 => Except.ok { s with builders := assocSet b bu2 s.builders }

/-- Modelled from the spec: addInput appends one positional input slot
(spec 4.2). -/
def addInput (s : BridgeState) (b : Nat) (p : Nat) (i : Nat) : Except TfError BridgeState :=
  updateBuilder s b (fun bu =>
    Except.ok { bu with inputSlots := bu.inputSlots ++ [InputSlot.single p i] })

/-- Modelled from the spec: addInputList appends a single variadic input
slot; mismatched array lengths raise InvalidArgument (spec 4.2 and
section 7 item 3). -/
def addInputList (s : BridgeState) (b : Nat) (ops : List Nat) (idxs : List Nat) : Except TfError BridgeState :=
  updateBuilder s b (fun bu =>
    if ops.length = idxs.length then
      Except.ok { bu with inputSlots := bu.inputSlots ++ [InputSlot.variadic (ops.zip idxs)] }
    else Except.error TfError.invalidArgument)

/-- Modelled from the spec: addControlInput adds a control dependency,
deduplicated by producer identity (spec 4.2, ordering rules). -/
def addControlInput (s : BridgeState) (b : Nat) (p : Nat) : Except TfError BridgeState :=
  updateBuilder s b (fun bu =>
    Except.ok (if bu.ctrlInputs.contains p then bu
               else { bu with ctrlInputs := bu.ctrlInputs ++ [p] }))

/-- Modelled from the spec: setDevice sets or overwrites the device
(spec 4.2). -/
def setDevice (s : BridgeState) (b : Nat) (d : String) : Except TfError BridgeState :=
  updateBuilder s b (fun bu => Except.ok { bu with device := d })

/-- Modelled from the spec: colocateWith accumulates a colocation
constraint (spec 4.2). -/
def colocateWith (s : BridgeState) (b : Nat) (o : Nat) : Except TfError BridgeState :=
  updateBuilder s b (fun bu =>
    Except.ok { bu with colocations := bu.colocations ++ [o] })

/-- Modelled from the spec: setAttrString stores raw bytes, last writer
wins (spec 4.2). -/
def setAttrString (s : BridgeState) (b : Nat) (nm : String) (v : List Nat) : Except TfError BridgeState :=
  updateBuilder s b (fun bu =>
    Except.ok { bu with attrs := assocSet nm (AttrValue.str v) bu.attrs })

/-- Modelled from the spec: setAttrStringList (spec 4.2). -/
def setAttrStringList (s : BridgeState) (b : Nat) (nm : String) (v : List (List Nat)) : Except TfError BridgeState :=
  updateBuilder s b (fun bu =>
    Except.ok { bu with attrs := assocSet nm (AttrValue.strList v) bu.attrs })

/-- Modelled from the spec: setAttrInt (spec 4.2). -/
def setAttrInt (s : BridgeState) (b : Nat) (nm : String) (v : Int) : Except TfError BridgeState :=
  updateBuilder s b (fun bu =>
    Except.ok { bu with attrs := assocSet nm (AttrValue.int v) bu.attrs })

/-- Modelled from the spec: setAttrIntList (spec 4.2). -/
def setAttrIntList (s : BridgeState) (b : Nat) (nm : String) (v : List Int) : Except TfError BridgeState :=
  updateBuilder s b (fun bu =>
    Except.ok { bu with attrs := assocSet nm (AttrValue.intList v) bu.attrs })

/-- Modelled from the spec: setAttrFloat, the 32-bit pattern carried
opaquely (spec 4.2). -/
def setAttrFloat (s : BridgeState) (b : Nat) (nm : String) (v : Nat) : Except TfError BridgeState :=
  updateBuilder s b (fun bu =>
    Except.ok { bu with attrs := assocSet nm (AttrValue.float v) bu.attrs })

/-- Modelled from the spec: setAttrFloatList (spec 4.2). -/
def setAttrFloatList (s : BridgeState) (b : Nat) (nm : String) (v : List Nat) : Except TfError BridgeState :=
  updateBuilder s b (fun bu =>
    Except.ok { bu with attrs := assocSet nm (AttrValue.floatList v) bu.attrs })

/-- Modelled from the spec: setAttrBool (spec 4.2). -/
def setAttrBool (s : BridgeState) (b : Nat) (nm : String) (v : Bool) : Except TfError BridgeState :=
  updateBuilder s b (fun bu =>
    Except.ok { bu with attrs := assocSet nm (AttrValue.bool v) bu.attrs })

/-- Modelled from the spec: setAttrBoolList (spec 4.2). -/
def setAttrBoolList (s : BridgeState) (b : Nat) (nm : String) (v : List Bool) : Except TfError BridgeState :=
  updateBuilder s b (fun bu =>
    Except.ok { bu with attrs := assocSet nm (AttrValue.boolList v) bu.attrs })

/-- Modelled from the spec: setAttrType (spec 4.2). -/
def setAttrType (s : BridgeState) (b : Nat) (nm : String) (v : Nat) : Except TfError BridgeState :=
  updateBuilder s b (fun bu =>
    Except.ok { bu with attrs := assocSet nm (AttrValue.type v) bu.attrs })

/-- Modelled from the spec: setAttrTypeList (spec 4.2). -/
def setAttrTypeList (s : BridgeState) (b : Nat) (nm : String) (v : List Nat) : Except TfError BridgeState :=
  updateBuilder s b (fun bu =>
    Except.ok { bu with attrs := assocSet nm (AttrValue.typeList v) bu.attrs })

/-- Modelled from the spec: setAttrTensor stores a tensor handle (spec
4.2). -/
def setAttrTensor (s : BridgeState) (b : Nat) (nm : String) (v : Nat) : Except TfError BridgeState :=
  updateBuilder s b (fun bu =>
    Except.ok { bu with attrs := assocSet nm (AttrValue.tensor v) bu.attrs })

/-- Modelled from the spec: setAttrTensorList (spec 4.2). -/
def setAttrTensorList (s : BridgeState) (b : Nat) (nm : String) (v : List Nat) : Except TfError BridgeState :=
  updateBuilder s b (fun bu =>
    Except.ok { bu with attrs := assocSet nm (AttrValue.tensorList v) bu.attrs })

/-- Modelled from the spec: setAttrShape encodes dims plus rank, with
rank 0 and empty dims a scalar and rank -1 unknown rank (spec 4.2). -/
def setAttrShape (s : BridgeState) (b : Nat) (nm : String) (dims : List Int) (rank : Int) : Except TfError BridgeState :=
  updateBuilder s b (fun bu =>
    match encodeShapeArg dims rank with
    | Except.error e => Except.error e
    | Except.ok sh => Except.ok { bu with attrs := assocSet nm (AttrValue.shape sh) bu.attrs })

/-- The node materialized from a builder at finish. -/
def nodeOfBuilder (bu : Builder) (od : OpDef) : Node :=
  { nodeName := bu.nodeName, opType := bu.opType, device := bu.device,
    inputSlots := bu.inputSlots, ctrlInputs := bu.ctrlInputs,
    outputTypes := od.outTypes, attrs := bu.attrs }

/-- Modelled from the spec: finish validates required attributes and
inputs, materializes the op on success, and consumes the builder on both
success and failure so later uses of the handle are invalid (spec 4.2
and the builder-consumption design note). -/
def finish (s : BridgeState) (b : Nat) : Except TfError Nat × BridgeState :=
  match assocGet b s.builders with
  | none => (Except.error TfError.invalidHandle, s)
  | some bu =>
    match assocGet bu.opType s.registry with
    | none => (Except.error TfError.backendError,
               { s with builders := assocRemove b s.builders })
    | some od =>
      if od.requiredAttrs.all (fun a => (assocGet a bu.attrs).isSome)
          && bu.inputSlots.length == od.requiredInputs then
        (Except.ok s.nextHandle,
         { s with builders := assocRemove b s.builders,
                  nodes := assocSet s.nextHandle (nodeOfBuilder bu od) s.nodes,
                  nextHandle := s.nextHandle + 1 })
      else (Except.error TfError.failedPrecondition,
            { s with builders := assocRemove b s.builders })

/-- Host-bridge convention for a numeric-returning entry point: on
success the value with no exception, on failure zero plus the raised
error (spec section 7, propagation policy). -/
def jniIntResult (r : Except TfError Nat) : Int × Option TfError :=
  match r with
  | Except.ok v => ((v : Int), none)
  | Except.error e => (0, some e)

/-- JNI-level numInputs. -/
def jniNumInputs (s : BridgeState) (op : Nat) : Int × Option TfError :=
  jniIntResult (numInputs s op)

/-- JNI-level numControlInputs. -/
def jniNumControlInputs (s : BridgeState) (op : Nat) : Int × Option TfError :=
  jniIntResult (numControlInputs s op)

/-- JNI-level numOutputs. -/
def jniNumOutputs (s : BridgeState) (op : Nat) : Int × Option TfError :=
  jniIntResult (numOutputs s op)

/-- JNI-level numControlOutputs. -/
def jniNumControlOutputs (s : BridgeState) (op : Nat) : Int × Option TfError :=
  jniIntResult (numControlOutputs s op)

/-- JNI-level numConsumers. -/
def jniNumConsumers (s : BridgeState) (op : Nat) (i : Nat) : Int × Option TfError :=
  jniIntResult (numConsumers s op i)

/-- JNI-level inputDataType. -/
def jniInputDataType (s : BridgeState) (g : Nat) (op : Nat) (i : Nat) : Int × Option TfError :=
  jniIntResult (inputDataType s g op i)

/-- JNI-level outputDataType. -/
def jniOutputDataType (s : BridgeState) (g : Nat) (op : Nat) (i : Nat) : Int × Option TfError :=
  jniIntResult (outputDataType s g op i)

/-- JNI-level getAttrType. -/
def jniGetAttrType (s : BridgeState) (op : Nat) (nm : String) : Int × Option TfError :=
  jniIntResult (getAttrType s op nm)

/-- JNI-level allocate: a handle-returning entry point returns zero and
raises on failure (spec section 7). -/
def jniAllocate (s : BridgeState) (g : Nat) (opType : String) (nodeName : String) : (Int × Option TfError) × BridgeState :=
  match allocate s g opType nodeName with
  | (Except.ok h, s2) => (((h : Int), none), s2)
  | (Except.error e, s2) => ((0, some e), s2)

/-- JNI-level finish: a handle-returning entry point returns zero and
raises on failure (spec section 7). -/
def jniFinish (s : BridgeState) (b : Nat) : (Int × Option TfError) × BridgeState :=
  match finish s b with
  | (Except.ok h, s2) => (((h : Int), none), s2)
  | (Except.error e, s2) => ((0, some e), s2)

/-- Extract the new state of a successful builder step; a fallback empty
state on error, used only to phrase closed concrete statements. -/
def exceptState (r : Except TfError BridgeState) : BridgeState :=
  match r with
  | Except.ok s => s
  | Except.error _ =>
    { registry := [], liveGraphs := [], nodes := [], shapes := [],
      builders := [], nextHandle := 0 }

/-- A sample op registry used by concrete scenarios. -/
def sampleRegistry : List (String × OpDef) :=
  [("Const", { requiredAttrs := ["dtype", "value"], requiredInputs := 0, outTypes := [3] }),
   ("Identity", { requiredAttrs := [], requiredInputs := 1, outTypes := [3] }),
   ("NoOp", { requiredAttrs := [], requiredInputs := 0, outTypes := [] })]

/-- A sample finalized node with two outputs and no inputs. -/
def nodeA : Node :=
  { nodeName := "a", opType := "Const", device := "",
    inputSlots := [], ctrlInputs := [], outputTypes := [3, 3],
    attrs := [("dtype", AttrValue.type 3)] }

/-- A sample finalized node consuming output 0 of node 1 and carrying a
control dependency on node 1. -/
def nodeB : Node :=
  { nodeName := "b", opType := "Identity", device := "",
    inputSlots := [InputSlot.single 1 0], ctrlInputs := [1], outputTypes := [3],
    attrs := [] }

/-- A sample live builder of op type NoOp. -/
def sampleBuilder : Builder :=
  { graph := 1, opType := "NoOp", nodeName := "n",
    inputSlots := [], ctrlInputs := [], device := "", colocations := [],
    attrs := [] }

/-- A sample bridge state: one live graph, two finalized nodes, recorded
shapes for their outputs, and one live builder with handle 5. -/
def sampleState : BridgeState :=
  { registry := sampleRegistry, liveGraphs := [1],
    nodes := [(1, nodeA), (2, nodeB)],
    shapes := [((1, 0), some []), ((1, 1), some [3, 4])],
    builders := [(5, sampleBuilder)],
    nextHandle := 6 }

theorem assocGet_set_self {κ α : Type} [DecidableEq κ] (k : κ) (v : α) (l : List (κ × α)) :
    assocGet k (assocSet k v l) = some v := by
  induction l with
  | nil => simp [assocGet, assocSet]
  | cons hd tl ih =>
    by_cases h : hd.1 = k
    · simp [assocSet, assocGet, h]
    · simp [assocSet, assocGet, h, ih]

theorem assocGet_remove_self {κ α : Type} [DecidableEq κ] (k : κ) (l : List (κ × α)) :
    assocGet k (assocRemove k l) = none := by
  induction l with
  | nil => simp [assocGet, assocRemove]
  | cons hd tl ih =>
    by_cases h : hd.1 = k
    · simp only [assocRemove]
      rw [if_pos h]
      exact ih
    · simp only [assocRemove]
      rw [if_neg h]
      simp only [assocGet]
      rw [if_neg h]
      exact ih

theorem assocGet_eq_of_mem {κ α : Type} [DecidableEq κ] (k : κ) (v : α) (l : List (κ × α))
    (hm : (k, v) ∈ l) (hd : (l.map Prod.fst).Nodup) : assocGet k l = some v := by
  induction l with
  | nil => cases hm
  | cons hd2 tl ih =>
    simp only [List.map_cons, List.nodup_cons] at hd
    rcases List.mem_cons.mp hm with h | h
    · subst h
      simp [assocGet]
    · have hk : hd2.1 ≠ k := by
        intro he
        exact hd.1 (he ▸ (List.mem_map.mpr ⟨(k, v), h, rfl⟩))
      simp only [assocGet]
      rw [if_neg hk]
      exact ih h hd.2

theorem updateBuilder_none (s : BridgeState) (b : Nat) (f : Builder → Except TfError Builder)
    (h : assocGet b s.builders = none) :
    updateBuilder s b f = Except.error TfError.invalidHandle := by
  simp [updateBuilder, h]

theorem updateBuilder_ok (s : BridgeState) (b : Nat) (f : Builder → Except TfError Builder)
    (s1 : BridgeState) (h : updateBuilder s b f = Except.ok s1) :
    ∃ bu bu2, assocGet b s.builders = some bu ∧ f bu = Except.ok bu2 ∧
      s1 = { s with builders := assocSet b bu2 s.builders } := by
  unfold updateBuilder at h
  split at h
  · cases h
  · rename_i bu hb
    split at h
    · cases h
    · rename_i bu2 hf
      cases h
      exact ⟨bu, bu2, hb, hf, rfl⟩

theorem finish_removes (s : BridgeState) (b : Nat) (bu : Builder)
    (r : Except TfError Nat) (s2 : BridgeState)
    (hb : assocGet b s.builders = some bu) (hf : finish s b = (r, s2)) :
    s2.builders = assocRemove b s.builders := by
  unfold finish at hf
  split at hf
  · rename_i hnone
    rw [hb] at hnone
    cases hnone
  · rename_i bu2 hsome
    rw [hb] at hsome
    injection hsome with he
    subst he
    split at hf
    · injection hf with h1 h2
      rw [← h2]
    · split at hf
      · injection hf with h1 h2
        rw [← h2]
      · injection hf with h1 h2
        rw [← h2]

theorem finish_ok (s : BridgeState) (b : Nat) (bu : Builder) (o : Nat) (s2 : BridgeState)
    (hb : assocGet b s.builders = some bu) (hf : finish s b = (Except.ok o, s2)) :
    ∃ od, assocGet bu.opType s.registry = some od ∧ o = s.nextHandle ∧
      s2 = { s with builders := assocRemove b s.builders,
                    nodes := assocSet s.nextHandle (nodeOfBuilder bu od) s.nodes,
                    nextHandle := s.nextHandle + 1 } := by
  unfold finish at hf
  split at hf
  · rename_i hnone
    rw [hb] at hnone
    cases hnone
  · rename_i bu2 hsome
    rw [hb] at hsome
    injection hsome with he
    subst he
    split at hf
    · injection hf with h1 h2
      cases h1
    · rename_i od hr
      split at hf
      · injection hf with h1 h2
        injection h1 with h1
        exact ⟨od, hr, h1.symm, h2.symm⟩
      · injection hf with h1 h2
        cases h1

theorem finish_none (s : BridgeState) (b : Nat) (h : assocGet b s.builders = none) :
    finish s b = (Except.error TfError.invalidHandle, s) := by
  simp [finish, h]

theorem mergeDim_refines (o n m : Int) (h : mergeDim o n = some m) :
    dimRefines m o = true := by
  unfold mergeDim at h
  by_cases h1 : o = -1
  · simp [dimRefines, h1]
  · rw [if_neg h1] at h
    by_cases h2 : n = -1
    · rw [if_pos h2] at h
      injection h with h
      simp [dimRefines, h]
    · rw [if_neg h2] at h
      by_cases h3 : o = n
      · rw [if_pos h3] at h
        injection h with h
        simp [dimRefines, h]
      · rw [if_neg h3] at h
        cases h

theorem mergeDims_refines : ∀ (os ns ms : List Int), mergeDims os ns = some ms →
    ms.length = os.length ∧ (ms.zip os).all (fun p => dimRefines p.1 p.2) = true := by
  intro os
  induction os with
  | nil =>
    intro ns ms h
    cases ns with
    | nil =>
      simp only [mergeDims] at h
      injection h with h
      subst h
      simp
    | cons y ys => simp [mergeDims] at h
  | cons x xs ih =>
    intro ns ms h
    cases ns with
    | nil => simp [mergeDims] at h
    | cons y ys =>
      simp only [mergeDims] at h
      cases hd : mergeDim x y with
      | none => rw [hd] at h; cases h
      | some d =>
        rw [hd] at h
        cases hr : mergeDims xs ys with
        | none => rw [hr] at h; cases h
        | some rest =>
          rw [hr] at h
          injection h with h
          subst h
          obtain ⟨hl, ha⟩ := ih ys rest hr
          refine ⟨by simp [hl], ?_⟩
          simp only [List.zip_cons_cons, List.all_cons, Bool.and_eq_true]
          exact ⟨mergeDim_refines x y d hd, ha⟩

theorem mergeDims_none_of_contra : ∀ (os ns : List Int) (j : Nat) (ov nv : Int),
    os.get? j = some ov → ns.get? j = some nv →
    ov ≠ -1 → nv ≠ -1 → ov ≠ nv → mergeDims os ns = none := by
  intro os
  induction os with
  | nil => intro ns j ov nv h1; simp at h1
  | cons x xs ih =>
    intro ns j ov nv h1 h2 h3 h4 h5
    cases ns with
    | nil => simp at h2
    | cons y ys =>
      cases j with
      | zero =>
        simp only [List.get?] at h1 h2
        injection h1 with h1
        injection h2 with h2
        rw [← h1] at h3 h5
        rw [← h2] at h4 h5
        have hd : mergeDim x y = none := by
          unfold mergeDim
          rw [if_neg h3, if_neg h4, if_neg h5]
        simp [mergeDims, hd]
      | succ j2 =>
        simp only [List.get?] at h1 h2
        have hr : mergeDims xs ys = none := ih ys j2 ov nv h1 h2 h3 h4 h5
        simp only [mergeDims, hr]
        cases mergeDim x y <;> rfl

theorem all_dimRefines_self : ∀ (ds : List Int),
    (ds.zip ds).all (fun p => dimRefines p.1 p.2) = true := by
  intro ds
  induction ds with
  | nil => rfl
  | cons d rest ih =>
    rw [List.zip_cons_cons, List.all_cons, Bool.and_eq_true]
    refine ⟨?_, ih⟩
    simp [dimRefines]

theorem shapeRefines_self (ds : List Int) : shapeRefines (some ds) (some ds) = true := by
  simp [shapeRefines, all_dimRefines_self]

theorem mergeShape_refines (old nsh : Option (List Int)) (m : Option (List Int))
    (h : mergeShape old nsh = some m) : shapeRefines m old = true := by
  cases old with
  | none => simp [shapeRefines]
  | some os =>
    cases nsh with
    | none =>
      simp only [mergeShape] at h
      injection h with h
      subst h
      exact shapeRefines_self os
    | some ns =>
      simp only [mergeShape] at h
      cases hm : mergeDims os ns with
      | none => rw [hm] at h; cases h
      | some ms =>
        rw [hm] at h
        injection h with h
        subst h
        obtain ⟨hl, ha⟩ := mergeDims_refines os ns ms hm
        simp only [shapeRefines, Bool.and_eq_true, beq_iff_eq]
        exact ⟨hl, ha⟩

/-- Claim C2 counterexample: the header declares no typed setter for the
shape-list attribute kind, so the surface does not cover every kind of
the section 3 tagged union. -/
theorem claim_C2_counterexample :
    AttrKind.shapeList ∉ headerSetAttrEntryPoints.map Prod.snd := by
  decide

/-- Claim C2 (amended): the entry-point surface exposes a typed setter
for every attribute kind of the section 3 tagged union except
shape-list. -/
theorem claim_C2 (k : AttrKind) (hk : k ≠ AttrKind.shapeList) :
    k ∈ headerSetAttrEntryPoints.map Prod.snd := by
  cases k
  case shapeList => exact absurd rfl hk
  all_goals decide

/-- Witness for claim C2: the tensor kind has a declared setter. -/
theorem claim_C2_witness : AttrKind.tensor ∈ headerSetAttrEntryPoints.map Prod.snd :=
  claim_C2 AttrKind.tensor (by decide)

/-- Claim C10: numControlInputs agrees with the length of the array
returned by controlInputs, and numControlOutputs with the length of the
array returned by controlOutputs. -/
theorem claim_C10 (s : BridgeState) (op : Nat) (a b : Nat) (l m : List Nat) :
    (numControlInputs s op = Except.ok a → controlInputs s op = Except.ok l →
      a = l.length) ∧
    (numControlOutputs s op = Except.ok b → controlOutputs s op = Except.ok m →
      b = m.length) := by
  constructor
  · intro h1 h2
    unfold numControlInputs at h1
    unfold controlInputs at h2
    split at h1
    · rename_i n hn
      split at h2
      · rename_i n2 hn2
        rw [hn] at hn2
        injection hn2 with hn2
        subst hn2
        injection h1 with h1
        injection h2 with h2
        rw [← h1, ← h2]
      · rename_i e2 hn2
        rw [hn] at hn2
        cases hn2
    · cases h1
  · intro h1 h2
    unfold numControlOutputs at h1
    unfold controlOutputs at h2
    split at h1
    · rename_i n hn
      split at h2
      · rename_i n2 hn2
        rw [hn] at hn2
        injection hn2 with hn2
        subst hn2
        injection h1 with h1
        injection h2 with h2
        rw [← h1, ← h2]
      · rename_i e2 hn2
        rw [hn] at hn2
        cases hn2
    · cases h1

/-- Witness for claim C10 at a concrete state: one control input and one
control output, both counts matching the returned array lengths. -/
theorem claim_C10_witness : (1 : Nat) = [(1 : Nat)].length ∧ (1 : Nat) = [(2 : Nat)].length :=
  ⟨(claim_C10 sampleState 2 1 1 [1] [2]).1 rfl rfl,
   (claim_C10 sampleState 1 1 1 [1] [2]).2 rfl rfl⟩

/-- Claim C3: every numeric-returning or handle-returning entry point
returns the zero sentinel and raises the error through the exception
channel whenever the underlying call fails. -/
theorem claim_C3 (s : BridgeState) (g op i b : Nat) (nm opT nn : String) (e : TfError) :
    (numInputs s op = Except.error e → jniNumInputs s op = (0, some e)) ∧
    (numControlInputs s op = Except.error e → jniNumControlInputs s op = (0, some e)) ∧
    (numOutputs s op = Except.error e → jniNumOutputs s op = (0, some e)) ∧
    (numControlOutputs s op = Except.error e → jniNumControlOutputs s op = (0, some e)) ∧
    (numConsumers s op i = Except.error e → jniNumConsumers s op i = (0, some e)) ∧
    (inputDataType s g op i = Except.error e → jniInputDataType s g op i = (0, some e)) ∧
    (outputDataType s g op i = Except.error e → jniOutputDataType s g op i = (0, some e)) ∧
    (getAttrType s op nm = Except.error e → jniGetAttrType s op nm = (0, some e)) ∧
    ((allocate s g opT nn).1 = Except.error e → (jniAllocate s g opT nn).1 = (0, some e)) ∧
    ((finish s b).1 = Except.error e → (jniFinish s b).1 = (0, some e)) := by
  refine ⟨?_, ?_, ?_, ?_, ?_, ?_, ?_, ?_, ?_, ?_⟩
  · intro h
    simp [jniNumInputs, jniIntResult, h]
  · intro h
    simp [jniNumControlInputs, jniIntResult, h]
  · intro h
    simp [jniNumOutputs, jniIntResult, h]
  · intro h
    simp [jniNumControlOutputs, jniIntResult, h]
  · intro h
    simp [jniNumConsumers, jniIntResult, h]
  · intro h
    simp [jniInputDataType, jniIntResult, h]
  · intro h
    simp [jniOutputDataType, jniIntResult, h]
  · intro h
    simp [jniGetAttrType, jniIntResult, h]
  · intro h
    unfold jniAllocate
    rcases hA : allocate s g opT nn with ⟨r, s2⟩
    rw [hA] at h
    cases r with
    | ok v => simp at h
    | error e2 =>
      simp at h
      subst h
      rfl
  · intro h
    unfold jniFinish
    rcases hA : finish s b with ⟨r, s2⟩
    rw [hA] at h
    cases r with
    | ok v => simp at h
    | error e2 =>
      simp at h
      subst h
      rfl

/-- Witness for claim C3: a failing numeric query and a failing finish
both return the zero sentinel together with the raised error. -/
theorem claim_C3_witness :
    jniNumInputs sampleState 9 = (0, some TfError.invalidHandle) ∧
    (jniFinish sampleState 9).1 = (0, some TfError.invalidHandle) := by
  have h := claim_C3 sampleState 1 9 0 9 "x" "T" "n" TfError.invalidHandle
  exact ⟨h.1 rfl, h.2.2.2.2.2.2.2.2.2 rfl⟩

/-- Claim C1: once finish has been called on a live builder handle,
whether it succeeded or failed, the handle is consumed: every subsequent
builder operation on it, including finish itself, raises InvalidHandle
and has no effect. -/
theorem claim_C1 (s : BridgeState) (b : Nat) (r : Except TfError Nat) (s2 : BridgeState)
    (p i c : Nat) (ops idxs : List Nat) (d nm : String)
    (v1 : List Nat) (v2 : List (List Nat)) (v3 : Int) (v4 : List Int)
    (v5 : Nat) (v6 : List Nat) (v7 : Bool) (v8 : List Bool)
    (v9 : Nat) (v10 : List Nat) (v11 : Nat) (v12 : List Nat)
    (dims : List Int) (rank : Int)
    (hb : (assocGet b s.builders).isSome = true)
    (hf : finish s b = (r, s2)) :
    addInput s2 b p i = Except.error TfError.invalidHandle ∧
    addInputList s2 b ops idxs = Except.error TfError.invalidHandle ∧
    addControlInput s2 b c = Except.error TfError.invalidHandle ∧
    setDevice s2 b d = Except.error TfError.invalidHandle ∧
    colocateWith s2 b c = Except.error TfError.invalidHandle ∧
    setAttrString s2 b nm v1 = Except.error TfError.invalidHandle ∧
    setAttrStringList s2 b nm v2 = Except.error TfError.invalidHandle ∧
    setAttrInt s2 b nm v3 = Except.error TfError.invalidHandle ∧
    setAttrIntList s2 b nm v4 = Except.error TfError.invalidHandle ∧
    setAttrFloat s2 b nm v5 = Except.error TfError.invalidHandle ∧
    setAttrFloatList s2 b nm v6 = Except.error TfError.invalidHandle ∧
    setAttrBool s2 b nm v7 = Except.error TfError.invalidHandle ∧
    setAttrBoolList s2 b nm v8 = Except.error TfError.invalidHandle ∧
    setAttrType s2 b nm v9 = Except.error TfError.invalidHandle ∧
    setAttrTypeList s2 b nm v10 = Except.error TfError.invalidHandle ∧
    setAttrTensor s2 b nm v11 = Except.error TfError.invalidHandle ∧
    setAttrTensorList s2 b nm v12 = Except.error TfError.invalidHandle ∧
    setAttrShape s2 b nm dims rank = Except.error TfError.invalidHandle ∧
    finish s2 b = (Except.error TfError.invalidHandle, s2) := by
  obtain ⟨bu, hbu⟩ := Option.isSome_iff_exists.mp hb
  have hrm : s2.builders = assocRemove b s.builders := finish_removes s b bu r s2 hbu hf
  have hnone : assocGet b s2.builders = none := by
    rw [hrm]
    exact assocGet_remove_self b s.builders
  exact ⟨updateBuilder_none s2 b _ hnone, updateBuilder_none s2 b _ hnone,
    updateBuilder_none s2 b _ hnone, updateBuilder_none s2 b _ hnone,
    updateBuilder_none s2 b _ hnone, updateBuilder_none s2 b _ hnone,
    updateBuilder_none s2 b _ hnone, updateBuilder_none s2 b _ hnone,
    updateBuilder_none s2 b _ hnone, updateBuilder_none s2 b _ hnone,
    updateBuilder_none s2 b _ hnone, updateBuilder_none s2 b _ hnone,
    updateBuilder_none s2 b _ hnone, updateBuilder_none s2 b _ hnone,
    updateBuilder_none s2 b _ hnone, updateBuilder_none s2 b _ hnone,
    updateBuilder_none s2 b _ hnone, updateBuilder_none s2 b _ hnone,
    finish_none s2 b hnone⟩

/-- Witness for claim C1: after finishing the sample builder, addInput
raises InvalidHandle and finish itself raises InvalidHandle without
touching the state. -/
theorem claim_C1_witness :
    addInput (finish sampleState 5).2 5 1 0 = Except.error TfError.invalidHandle ∧
    finish (finish sampleState 5).2 5 = (Except.error TfError.invalidHandle, (finish sampleState 5).2) := by
  have h := claim_C1 sampleState 5 (finish sampleState 5).1 (finish sampleState 5).2
    1 0 1 [] [] "" "x" [] [] 0 [] 0 [] true [] 0 [] 0 [] [] 0 rfl rfl
  exact ⟨h.1, h.2.2.2.2.2.2.2.2.2.2.2.2.2.2.2.2.2.2⟩

/-- Claim C4: every pair returned by consumers for output i of op points
back through the input relation: input at that pair yields (op, i). -/
theorem claim_C4 (s : BridgeState) (op i : Nat) (lst : List (Nat × Nat)) (c k : Nat)
    (hnd : (s.nodes.map Prod.fst).Nodup)
    (hc : consumers s op i = Except.ok lst)
    (hm : (c, k) ∈ lst) :
    input s c k = Except.ok (op, i) := by
  unfold consumers at hc
  split at hc
  · cases hc
  · rename_i n hn
    split at hc
    · injection hc with hc
      subst hc
      unfold consumersOf at hm
      rw [List.mem_flatten] at hm
      obtain ⟨l, hl, hmem⟩ := hm
      rw [List.mem_map] at hl
      obtain ⟨en, he, hle⟩ := hl
      subst hle
      rw [List.mem_map] at hmem
      obtain ⟨k2, hk2, hpair⟩ := hmem
      injection hpair with hpc hpk
      unfold consumerSlots at hk2
      rw [List.mem_filter] at hk2
      have hedge := of_decide_eq_true hk2.2
      have hget : assocGet c s.nodes = some en.2 := by
        rw [← hpc]
        exact assocGet_eq_of_mem en.1 en.2 s.nodes he hnd
      subst hpk
      rw [List.get?_eq_getElem?] at hedge
      simp [input, lookupNode, hget, hedge]
    · cases hc

/-- Witness for claim C4 at a concrete two-node graph: node 2 consumes
output 0 of node 1 and input(2, 0) returns (1, 0). -/
theorem claim_C4_witness : input sampleState 2 0 = Except.ok (1, 0) :=
  claim_C4 sampleState 1 0 [(2, 0)] 2 0 (by decide) rfl (by decide)

/-- The value round-trip of an attribute stored by a builder setter and
recovered from the finished node. -/
theorem attr_roundtrip (s : BridgeState) (b : Nat) (nm : String) (av : AttrValue)
    (s1 : BridgeState) (o : Nat) (s2 : BridgeState)
    (hset : updateBuilder s b
      (fun bu => Except.ok { bu with attrs := assocSet nm av bu.attrs }) = Except.ok s1)
    (hf : finish s1 b = (Except.ok o, s2)) :
    ∃ n, lookupNode s2 o = Except.ok n ∧ assocGet nm n.attrs = some av := by
  obtain ⟨bu, bu2, hb, hfb, hs1⟩ := updateBuilder_ok s b _ s1 hset
  injection hfb with hfb
  subst hfb
  subst hs1
  have hb1 : assocGet b
      ({ s with builders := assocSet b { bu with attrs := assocSet nm av bu.attrs } s.builders } : BridgeState).builders =
      some { bu with attrs := assocSet nm av bu.attrs } :=
    assocGet_set_self b _ s.builders
  obtain ⟨od, hr, ho, hs2⟩ := finish_ok _ b _ o s2 hb1 hf
  subst hs2
  subst ho
  refine ⟨nodeOfBuilder { bu with attrs := assocSet nm av bu.attrs } od, ?_, ?_⟩
  · simp [lookupNode, assocGet_set_self]
  · simp [nodeOfBuilder, assocGet_set_self]

/-- The dims-plus-rank encoding of a known-rank shape with consistent
rank decodes to exactly its dimension list. -/
theorem encodeShapeArg_ofNat (dims : List Int) :
    encodeShapeArg dims (dims.length : Int) = Except.ok (some dims) := by
  have h1 : ¬((dims.length : Int) = -1) := by
    simp
  have h3 : 0 ≤ (dims.length : Int) ∧ dims.length = ((dims.length : Int)).toNat := by
    refine ⟨Int.natCast_nonneg _, ?_⟩
    simp
  unfold encodeShapeArg
  rw [if_neg h1, if_pos h3]

/-- The unknown-rank encoding decodes to the absent shape. -/
theorem encodeShapeArg_unknown : encodeShapeArg [] (-1) = Except.ok none := by
  simp [encodeShapeArg]

/-- Claim C7: attribute round-trip for every kind with a read-back
query: setting a string, string-list, type, or shape attribute and then
finishing the builder makes the matching getter on the finished op
return exactly the stored value. -/
theorem claim_C7 (s : BridgeState) (b : Nat) (nm : String) :
    (∀ v s1 o s2, setAttrString s b nm v = Except.ok s1 →
      finish s1 b = (Except.ok o, s2) → getAttrString s2 o nm = Except.ok v) ∧
    (∀ v s1 o s2, setAttrStringList s b nm v = Except.ok s1 →
      finish s1 b = (Except.ok o, s2) → getAttrStringList s2 o nm = Except.ok v) ∧
    (∀ v s1 o s2, setAttrType s b nm v = Except.ok s1 →
      finish s1 b = (Except.ok o, s2) → getAttrType s2 o nm = Except.ok v) ∧
    (∀ dims s1 o s2, setAttrShape s b nm dims (dims.length : Int) = Except.ok s1 →
      finish s1 b = (Except.ok o, s2) → getAttrShape s2 o nm = Except.ok (some dims)) ∧
    (∀ s1 o s2, setAttrShape s b nm [] (-1) = Except.ok s1 →
      finish s1 b = (Except.ok o, s2) → getAttrShape s2 o nm = Except.ok none) := by
  refine ⟨?_, ?_, ?_, ?_, ?_⟩
  · intro v s1 o s2 hset hf
    obtain ⟨n, hn, ha⟩ := attr_roundtrip s b nm (AttrValue.str v) s1 o s2 hset hf
    simp [getAttrString, hn, ha]
  · intro v s1 o s2 hset hf
    obtain ⟨n, hn, ha⟩ := attr_roundtrip s b nm (AttrValue.strList v) s1 o s2 hset hf
    simp [getAttrStringList, hn, ha]
  · intro v s1 o s2 hset hf
    obtain ⟨n, hn, ha⟩ := attr_roundtrip s b nm (AttrValue.type v) s1 o s2 hset hf
    simp [getAttrType, hn, ha]
  · intro dims s1 o s2 hset hf
    simp only [setAttrShape, encodeShapeArg_ofNat] at hset
    obtain ⟨n, hn, ha⟩ := attr_roundtrip s b nm (AttrValue.shape (some dims)) s1 o s2 hset hf
    simp [getAttrShape, hn, ha]
  · intro s1 o s2 hset hf
    simp only [setAttrShape, encodeShapeArg_unknown] at hset
    obtain ⟨n, hn, ha⟩ := attr_roundtrip s b nm (AttrValue.shape none) s1 o s2 hset hf
    simp [getAttrShape, hn, ha]

/-- Witness for claim C7: concrete round-trips through the sample
builder for all four read-back kinds and for the unknown-rank shape. -/
theorem claim_C7_witness :
    getAttrString (finish (exceptState (setAttrString sampleState 5 "x" [7])) 5).2 6 "x" = Except.ok [7] ∧
    getAttrStringList (finish (exceptState (setAttrStringList sampleState 5 "x" [[7]])) 5).2 6 "x" = Except.ok [[7]] ∧
    getAttrType (finish (exceptState (setAttrType sampleState 5 "x" 3)) 5).2 6 "x" = Except.ok 3 ∧
    getAttrShape (finish (exceptState (setAttrShape sampleState 5 "x" [2, 3] 2)) 5).2 6 "x" = Except.ok (some [2, 3]) ∧
    getAttrShape (finish (exceptState (setAttrShape sampleState 5 "x" [] (-1))) 5).2 6 "x" = Except.ok none := by
  refine ⟨?_, ?_, ?_, ?_, ?_⟩
  · exact (claim_C7 sampleState 5 "x").1 [7] _ 6 _ rfl rfl
  · exact (claim_C7 sampleState 5 "x").2.1 [[7]] _ 6 _ rfl rfl
  · exact (claim_C7 sampleState 5 "x").2.2.1 3 _ 6 _ rfl rfl
  · exact (claim_C7 sampleState 5 "x").2.2.2.1 [2, 3] _ 6 _ rfl rfl
  · exact (claim_C7 sampleState 5 "x").2.2.2.2 _ 6 _ rfl rfl

/-- Claim C5: setShape fails with FailedPrecondition when some known
caller dimension contradicts a known recorded dimension of the existing
inferred shape. -/
theorem claim_C5 (s : BridgeState) (g op i : Nat) (dims es : List Int) (j : Nat)
    (ov nv : Int)
    (hg : s.liveGraphs.contains g = true)
    (n : Node) (hn : lookupNode s op = Except.ok n)
    (hi : i < n.outputTypes.length)
    (hsh : shapeOf s op i = some es)
    (hje : es.get? j = some ov) (hjd : dims.get? j = some nv)
    (hov : ov ≠ -1) (hnv : nv ≠ -1) (hne : ov ≠ nv) :
    setShape s g op i dims (dims.length : Int) = Except.error TfError.failedPrecondition := by
  have hmerge : mergeDims es dims = none :=
    mergeDims_none_of_contra es dims j ov nv hje hjd hov hnv hne
  unfold setShape
  rw [if_pos hg, hn]
  simp only [hi, if_true, encodeShapeArg_ofNat]
  simp [hsh, mergeShape, hmerge, hi]

/-- Witness for claim C5: refining an inferred [3, 4] with [3, 5] is
rejected with FailedPrecondition. -/
theorem claim_C5_witness :
    setShape sampleState 1 1 1 [3, 5] 2 = Except.error TfError.failedPrecondition :=
  claim_C5 sampleState 1 1 1 [3, 5] [3, 4] 1 4 5 rfl nodeA rfl (by decide) rfl rfl rfl
    (by decide) (by decide) (by decide)

/-- Claim C6: shape refinement is monotone: when setShape succeeds, the
shape reported afterwards refines the shape reported before, widening or
forgetting no known dimension. -/
theorem claim_C6 (s : BridgeState) (g op i : Nat) (dims : List Int) (rank : Int)
    (s1 : BridgeState) (old new : Option (List Int))
    (hset : setShape s g op i dims rank = Except.ok s1)
    (hold : shape s g op i = Except.ok old)
    (hnew : shape s1 g op i = Except.ok new) :
    shapeRefines new old = true := by
  unfold setShape at hset
  split at hset
  · rename_i hg
    split at hset
    · cases hset
    · rename_i n hn
      split at hset
      · rename_i hi
        split at hset
        · cases hset
        · rename_i nsh henc
          split at hset
          · cases hset
          · rename_i m hm
            injection hset with hset
            subst hset
            have hn2 : assocGet op s.nodes = some n := by
              unfold lookupNode at hn
              split at hn
              · rename_i n2 ha
                injection hn with h
                subst h
                exact ha
              · cases hn
            have hg2 : g ∈ s.liveGraphs := by
              simpa using hg
            simp [shape, lookupNode, hg2, hn2, hi] at hold
            simp [shape, lookupNode, hg2, hn2, hi, shapeOf, assocGet_set_self] at hnew
            subst hold
            subst hnew
            exact mergeShape_refines (shapeOf s op i) nsh m hm
      · cases hset
  · cases hset

/-- Witness for claim C6: refining [3, 4] with [-1, 4] succeeds and the
reported shape still refines the previous one. -/
theorem claim_C6_witness : shapeRefines (some [3, 4]) (some [3, 4]) = true :=
  claim_C6 sampleState 1 1 1 [-1, 4] 2
    (exceptState (setShape sampleState 1 1 1 [-1, 4] 2)) (some [3, 4]) (some [3, 4])
    (by rfl) rfl (by rfl)

/-- Claim C8: addInputList with equal-length arrays appends exactly one
variadic positional slot, which the finished op counts once in
numInputs; with mismatched lengths it raises InvalidArgument and appends
nothing. -/
theorem claim_C8 (s : BridgeState) (b : Nat) (ops idxs : List Nat) (bu : Builder)
    (hb : assocGet b s.builders = some bu) :
    (ops.length ≠ idxs.length →
      addInputList s b ops idxs = Except.error TfError.invalidArgument) ∧
    (ops.length = idxs.length →
      ∃ s1, addInputList s b ops idxs = Except.ok s1 ∧
        assocGet b s1.builders =
          some { bu with inputSlots := bu.inputSlots ++ [InputSlot.variadic (ops.zip idxs)] } ∧
        ∀ o s2, finish s1 b = (Except.ok o, s2) →
          numInputs s2 o = Except.ok (bu.inputSlots.length + 1)) := by
  constructor
  · intro hne
    simp [addInputList, updateBuilder, hb, hne]
  · intro heq
    refine ⟨({ s with builders := assocSet b ({ bu with inputSlots := bu.inputSlots ++ [InputSlot.variadic (ops.zip idxs)] } : Builder) s.builders } : BridgeState), ?_, ?_, ?_⟩
    · simp [addInputList, updateBuilder, hb, heq]
    · exact assocGet_set_self b _ s.builders
    · intro o s2 hf
      have hb1 : assocGet b ({ s with builders := assocSet b ({ bu with inputSlots := bu.inputSlots ++ [InputSlot.variadic (ops.zip idxs)] } : Builder) s.builders } : BridgeState).builders = some ({ bu with inputSlots := bu.inputSlots ++ [InputSlot.variadic (ops.zip idxs)] } : Builder) :=
        assocGet_set_self b _ s.builders
      obtain ⟨od, hr, ho, hs2⟩ := finish_ok _ b _ o s2 hb1 hf
      subst hs2
      subst ho
      simp [numInputs, lookupNode, assocGet_set_self, nodeOfBuilder]

/-- Witness for claim C8: mismatched producer and index arrays are
rejected with InvalidArgument. -/
theorem claim_C8_witness :
    addInputList sampleState 5 [1] [] = Except.error TfError.invalidArgument :=
  (claim_C8 sampleState 5 [1] [] sampleBuilder rfl).1 (by decide)

end OpBridge

